import Mathlib

/-!
Formal model of the service controller core of `useintest`
(`useintest/services/controllers.py`).

The Python code is effectful: it talks to a container runtime, reads a log
stream and issues HTTP requests.  The embedding makes the environment
explicit: the behaviour of each readiness wait, the log lines produced by a
container, the HTTP responses of successive polls and the set of containers
known to the runtime are all passed in as values, and the functions below
compute the control flow of the Python code over them.
-/

namespace Useintest

/-- Result of one run of `_wait_until_started`: it either returns normally,
raises `TransientServiceStartError` with a message, or raises
`PersistentServiceStartError` with the offending line. -/
inductive WaitRes where
  | ok : WaitRes
  | transient : String → WaitRes
  | persistent : String → WaitRes
  deriving DecidableEq

/-- Outcome of one iteration of the retry loop of
`ContainerisedServiceController.start_service` (controllers.py lines
115-133), as seen by the exception handlers there: the wait returned
(service started), `TimeoutError` was raised by the timeout wrapper,
`TransientServiceStartError` was raised, or `PersistentServiceStartError`
was raised (uncaught there). -/
inductive AttemptOutcome where
  | started : AttemptOutcome
  | timedOut : AttemptOutcome
  | transientError : String → AttemptOutcome
  | persistentError : String → AttemptOutcome
  deriving DecidableEq

/-- Observable result of `start_service`: the populated service is returned,
`PersistentServiceStartError` propagates to the caller, or
`ServiceStartError` is raised after the retry budget is exhausted
(controllers.py line 135). -/
inductive StartResult where
  | serviceReturned : StartResult
  | persistentFailure : String → StartResult
  | startError : StartResult
  deriving DecidableEq

/-- Calls `start_service` makes on the container backend: `_stop` and
`_start` (controllers.py lines 118-119). -/
inductive LifeEvent where
  | stopCall : LifeEvent
  | startCall : LifeEvent
  deriving DecidableEq

/-- How the `except` clauses of `start_service` classify the value a
completed `_wait_until_started` call produced. -/
def waitResultToOutcome : WaitRes → AttemptOutcome
  | WaitRes.ok => AttemptOutcome.started
  | WaitRes.transient m => AttemptOutcome.transientError m
  | WaitRes.persistent l => AttemptOutcome.persistentError l

/-- Behaviour of one un-wrapped readiness wait: it completes after
`duration` time units with the given result. -/
inductive RawWait where
  | completes : Nat → WaitRes → RawWait

/-- Embedding of controllers.py lines 120-127: when `start_timeout` is
finite (`some t`) the wait is wrapped by `timeout_decorator.timeout`, which
raises `TimeoutError` exactly when the wait runs longer than the timeout;
when `start_timeout` is `math.inf` (`none`) the wait is entered unwrapped,
with no deadline. -/
def attempt_outcome (start_timeout : Option Nat) (w : RawWait) : AttemptOutcome :=
  match w with
  | RawWait.completes d r =>
    match start_timeout with
    | some t => if t < d then AttemptOutcome.timedOut else waitResultToOutcome r
    | none => waitResultToOutcome r

/-- Embedding of the `while tries < self.start_tries` loop of
`ContainerisedServiceController.start_service` (controllers.py lines
115-135).  `tries` is the loop counter; `remaining` is `start_tries -
tries`, the structural fuel.  `outcomes i` is the behaviour of the wrapped
readiness wait on attempt `i`.  On each iteration: if `tries > 0` the
service is `_stop`ped, then `_start`ed; a `started` wait returns the
service, a persistent error propagates, and `TimeoutError` and
`TransientServiceStartError` are logged and the loop continues.  Falling
off the loop raises `ServiceStartError`. -/
def start_service_go (outcomes : Nat → AttemptOutcome) : Nat → Nat → StartResult × List LifeEvent
  | _, 0 => (StartResult.startError, [])
  | tries, remaining + 1 =>
    let pre : List LifeEvent :=
      (if 0 < tries then [LifeEvent.stopCall] else []) ++ [LifeEvent.startCall]
    match outcomes tries with
    | AttemptOutcome.started => (StartResult.serviceReturned, pre)
    | AttemptOutcome.persistentError line => (StartResult.persistentFailure line, pre)
    | AttemptOutcome.timedOut =>
      let next := start_service_go outcomes (tries + 1) remaining
      (next.1, pre ++ next.2)
    | AttemptOutcome.transientError _ =>
      let next := start_service_go outcomes (tries + 1) remaining
      (next.1, pre ++ next.2)

/-- `start_service` with a finite `start_tries`, returning its result
together with the trace of `_stop`/`_start` calls it made. -/
def start_service (start_tries : Nat) (outcomes : Nat → AttemptOutcome) :
    StartResult × List LifeEvent :=
  start_service_go outcomes 0 start_tries

/-- Trace of backend calls made by `start_service` when every one of `n`
attempts fails: `_start`, then `_stop`; `_start` for each later attempt. -/
def failureTrace : Nat → List LifeEvent
  | 0 => []
  | n + 1 => LifeEvent.startCall :: (List.replicate n [LifeEvent.stopCall, LifeEvent.startCall]).flatten

/-- Embedding of the guard pattern `detector is not None and
self._call_detector_with_correct_arguments(detector, line, service)`
(controllers.py lines 272-277). -/
def matchesOpt (d : Option (String → Bool)) (line : String) : Bool :=
  match d with
  | none => false
  | some f => f line

/-- Worker for `_wait_until_log_indicates_start` (controllers.py lines
259-284).  `pd`, `td` and `sd` are the persistent-error, transient-error
and start log detectors; `dump` is what `service.container.logs()` returns
once the stream has ended; `n` counts the lines read so far.  For each
line, in source order: a persistent-error match raises
`PersistentServiceStartError(line)`, else a transient-error match raises
`TransientServiceStartError(line)`, else a start match returns; when the
stream is exhausted a `TransientServiceStartError` carrying the log dump is
raised (lines 281-284). -/
def wait_log_go (pd td : Option (String → Bool)) (sd : String → Bool) (dump : String) :
    List String → Nat → WaitRes × Nat
  | [], n =>
    (WaitRes.transient ("No error detected in logs but the container has stopped. Log dump: " ++ dump), n)
  | line :: rest, n =>
    if matchesOpt pd line then (WaitRes.persistent line, n + 1)
    else if matchesOpt td line then (WaitRes.transient line, n + 1)
    else if sd line then (WaitRes.ok, n + 1)
    else wait_log_go pd td sd dump rest (n + 1)

/-- `_wait_until_log_indicates_start` over the stream `lines`, returning
its result and the number of lines it read. -/
def wait_until_log_indicates_start (pd td : Option (String → Bool)) (sd : String → Bool)
    (lines : List String) (dump : String) : WaitRes × Nat :=
  wait_log_go pd td sd dump lines 0

/-- Embedding of `_wait_until_http_indicates_start` (controllers.py lines
286-296): poll the endpoint until the detector accepts a response.
`responses` is the sequence of responses the environment produces; the
result is the number of requests issued before success, or `none` when the
detector accepts none of them (the Python loop would keep polling). -/
def wait_until_http_indicates_start (det : Nat → Bool) : List Nat → Option Nat
  | [] => none
  | r :: rest =>
    if det r then some 1
    else (wait_until_http_indicates_start det rest).map (· + 1)

/-- Configuration of a `DockerisedServiceController` relevant to readiness
detection (constructor parameters, controllers.py lines 172-180).  A
`startup_monitor` is an opaque callable; the model records the result its
invocation produces.  `start_timeout` is `none` for `math.inf`. -/
structure DockerisedServiceController where
  start_timeout : Option Nat
  start_tries : Nat
  start_log_detector : Option (String → Bool)
  persistent_error_log_detector : Option (String → Bool)
  transient_error_log_detector : Option (String → Bool)
  startup_monitor : Option WaitRes
  start_http_detector : Option (Nat → Bool)
  start_http_detection_endpoint : Option String

/-- Validation performed by `DockerisedServiceController.__init__`
(controllers.py lines 197-202): `startup_monitor` may not be combined with
any log detector or the HTTP detector, and `start_http_detector` and
`start_http_detection_endpoint` must be given together. -/
def dockerised_init_check (c : DockerisedServiceController) : Except String Unit :=
  if c.startup_monitor.isSome &&
      (c.start_log_detector.isSome || c.persistent_error_log_detector.isSome ||
        c.transient_error_log_detector.isSome || c.start_http_detector.isSome) then
    Except.error ("Cannot set `startup_monitor` in conjunction with any other detector")
  else if (!c.start_http_detector.isSome && c.start_http_detection_endpoint.isSome) ||
      (c.start_http_detector.isSome && !c.start_http_detection_endpoint.isSome) then
    Except.error ("Must specify both `start_http_detector` and `start_http_detection_endpoint`")
  else
    Except.ok ()

/-- Environment one readiness wait runs in: the container's streamed log
lines, the full log dump available after the stream ends, and the statuses
of successive HTTP poll responses. -/
structure WaitEnv where
  logLines : List String
  dumpLogs : String
  httpResponses : List Nat

/-- Embedding of `DockerisedServiceController._wait_until_started`
(controllers.py lines 250-257): a configured `startup_monitor` replaces
everything else; otherwise the log monitor runs when `start_log_detector`
is set, and then the HTTP monitor runs when `start_http_detector` is set.
The result carries the wait's outcome, the number of log lines read, and
the number of HTTP requests issued; `none` means the HTTP poll never
returns within the environment's responses. -/
def wait_until_started (c : DockerisedServiceController) (env : WaitEnv) :
    Option (WaitRes × Nat × Nat) :=
  match c.startup_monitor with
  | some r => some (r, 0, 0)
  | none =>
    let logStep : WaitRes × Nat :=
      match c.start_log_detector with
      | some sd =>
        wait_until_log_indicates_start c.persistent_error_log_detector
          c.transient_error_log_detector sd env.logLines env.dumpLogs
      | none => (WaitRes.ok, 0)
    match logStep with
    | (WaitRes.ok, n) =>
      match c.start_http_detector with
      | some det =>
        match wait_until_http_indicates_start det env.httpResponses with
        | some m => some (WaitRes.ok, n, m)
        | none => none
      | none => some (WaitRes.ok, n, 0)
    | (e, n) => some (e, n, 0)

/-- Model of `DockerisedService` (fields populated by
`DockerisedServiceController._start`): a surrogate identity used as the
`_log_iterator` dictionary key, the generated name, the port mapping and
the backing container handle. -/
structure DockerisedService where
  id : Nat
  name : String
  ports : List (Nat × Nat)
  container : Option String
  deriving DecidableEq

/-- Errors of the container runtime client relevant here. -/
inductive DockerError where
  | notFound : DockerError
  deriving DecidableEq

/-- `container.stop()`: raises `NotFound` when the runtime no longer knows
the container, otherwise succeeds without changing which containers
exist. -/
def container_stop (w : List String) (c : String) : Except DockerError (List String) :=
  if c ∈ w then Except.ok w else Except.error DockerError.notFound

/-- `container.remove(force=True)`: removes the container from the runtime,
raising `NotFound` when it is already absent. -/
def container_remove_force (w : List String) (c : String) : Except DockerError (List String) :=
  if c ∈ w then Except.ok (w.erase c) else Except.error DockerError.notFound

/-- Embedding of `DockerisedServiceController._stop` (controllers.py lines
240-248) over the runtime state `w` (existing container ids) and the
`_log_iterator` key set `logIters`: drop the service's log iterator, then,
when `service.container` is set, `stop` and `remove` it, swallowing
`NotFound`.  The service record itself is not modified.  Returns the new
runtime state, the new log-iterator keys and the (unchanged) service. -/
def dockerised_stop (w : List String) (logIters : List Nat) (s : DockerisedService) :
    List String × List Nat × DockerisedService :=
  let logIters' := logIters.erase s.id
  match s.container with
  | none => (w, logIters', s)
  | some c =>
    match (container_stop w c).bind (fun w1 => container_remove_force w1 c) with
    | Except.ok w2 => (w2, logIters', s)
    | Except.error DockerError.notFound => (w, logIters', s)

/-- `ContainerisedServiceController.stop_service` (controllers.py lines
137-138) just delegates to `_stop`. -/
def stop_service (w : List String) (logIters : List Nat) (s : DockerisedService) :
    List String × List Nat × DockerisedService :=
  dockerised_stop w logIters s

/-- Embedding of `DockerisedServiceController._start` (controllers.py lines
218-238): a fresh container `fresh` is created in the runtime and started,
and the service record's `name`, `ports` and `container` fields are
populated (`name`, `ports` and `fresh` stand for the generated name, the
allocated port map and the new container's id). -/
def dockerised_start (w : List String) (s : DockerisedService) (fresh : String)
    (name : String) (ports : List (Nat × Nat)) : List String × DockerisedService :=
  (fresh :: w, { s with name := name, ports := ports, container := some fresh })

/-- A controller configured with both log-based and HTTP-based detection
and no custom monitor. -/
def logAndHttpController : DockerisedServiceController :=
  { start_timeout := none
    start_tries := 10
    start_log_detector := some (fun line => line == "ready")
    persistent_error_log_detector := none
    transient_error_log_detector := none
    startup_monitor := none
    start_http_detector := some (fun status => status == 200)
    start_http_detection_endpoint := some ("health") }

/-- A never-started service record. -/
def svc0 : DockerisedService :=
  { id := 0, name := "", ports := [], container := none }

/-- A started service record backed by container "c1". -/
def svc1 : DockerisedService :=
  { id := 1, name := "couchdb-1", ports := [(5984, 49154)], container := some ("c1") }

/-- A controller configured with no custom monitor and no detectors at
all. -/
def noDetectorController : DockerisedServiceController :=
  { start_timeout := none
    start_tries := 10
    start_log_detector := none
    persistent_error_log_detector := none
    transient_error_log_detector := none
    startup_monitor := none
    start_http_detector := none
    start_http_detection_endpoint := none }

/-- Helper: a run of the retry loop from a positive loop counter in which
every attempt in range fails transiently (or times out) exhausts its fuel
and raises `ServiceStartError`, stopping and restarting the service once
per attempt. -/
theorem start_go_all_fail (outcomes : Nat → AttemptOutcome) :
    ∀ remaining tries, 0 < tries →
    (∀ i, tries ≤ i → i < tries + remaining →
      outcomes i = AttemptOutcome.timedOut ∨ ∃ m, outcomes i = AttemptOutcome.transientError m) →
    start_service_go outcomes tries remaining =
      (StartResult.startError,
        (List.replicate remaining [LifeEvent.stopCall, LifeEvent.startCall]).flatten) := by
  intro remaining
  induction remaining with
  | zero => intro tries _ _; rfl
  | succ n ih =>
    intro tries htries h
    have h0 := h tries le_rfl (by omega)
    rcases h0 with h0 | ⟨m, h0⟩ <;>
      simp only [start_service_go, h0, if_pos htries] <;>
      rw [ih (tries + 1) (by omega) (fun i h1 h2 => h i (by omega) (by omega))] <;>
      simp [List.replicate_succ]

/-- Helper: a run of the retry loop from a positive loop counter in which
the first `k` attempts fail transiently and attempt `k` raises a persistent
error stops right there and propagates the persistent error. -/
theorem start_go_persistent (outcomes : Nat → AttemptOutcome) (line : String) :
    ∀ k remaining tries, 0 < tries → k < remaining →
    (∀ i, tries ≤ i → i < tries + k →
      outcomes i = AttemptOutcome.timedOut ∨ ∃ m, outcomes i = AttemptOutcome.transientError m) →
    outcomes (tries + k) = AttemptOutcome.persistentError line →
    start_service_go outcomes tries remaining =
      (StartResult.persistentFailure line,
        (List.replicate (k + 1) [LifeEvent.stopCall, LifeEvent.startCall]).flatten) := by
  intro k
  induction k with
  | zero =>
    intro remaining tries htries hk _ hp
    obtain ⟨r, rfl⟩ : ∃ r, remaining = r + 1 := ⟨remaining - 1, by omega⟩
    simp only [Nat.add_zero] at hp
    simp [start_service_go, hp, if_pos htries]
  | succ j ih =>
    intro remaining tries htries hk h hp
    obtain ⟨r, rfl⟩ : ∃ r, remaining = r + 1 := ⟨remaining - 1, by omega⟩
    have h0 := h tries le_rfl (by omega)
    have hp' : outcomes (tries + 1 + j) = AttemptOutcome.persistentError line := by
      rw [show tries + 1 + j = tries + (j + 1) by omega]; exact hp
    rcases h0 with h0 | ⟨m, h0⟩ <;>
      simp only [start_service_go, h0, if_pos htries] <;>
      rw [ih r (tries + 1) (by omega) (by omega) (fun i h1 h2 => h i (by omega) (by omega)) hp'] <;>
      simp [List.replicate_succ]

/-- Helper: the failure trace of `n` attempts contains exactly `n` calls to
`_start`. -/
theorem count_startCall_failureTrace (n : Nat) :
    (failureTrace n).count LifeEvent.startCall = n := by
  induction n with
  | zero => rfl
  | succ m _ =>
    have key : ∀ j : Nat,
        ((List.replicate j [LifeEvent.stopCall, LifeEvent.startCall]).flatten).count
          LifeEvent.startCall = j := by
      intro j
      induction j with
      | zero => rfl
      | succ i ih => simp [List.replicate_succ, List.count_append, List.count_cons, ih]
    simp [failureTrace, List.count_cons, key m]

/-- C1: if the readiness wait raises `PersistentServiceStartError` on
attempt `k` (after only transient failures or timeouts), `start_service`
propagates the error immediately to the caller and makes no further start
attempts: exactly `k + 1` calls to `_start` are made, independently of the
configured `start_tries`; in particular a persistent error on the first
attempt leaves the attempt count at 1. -/
theorem start_service_persistent_aborts (start_tries : Nat) (outcomes : Nat → AttemptOutcome)
    (line : String) (k : Nat)
    (hk : k < start_tries)
    (hfail : ∀ i, i < k →
      outcomes i = AttemptOutcome.timedOut ∨ ∃ m, outcomes i = AttemptOutcome.transientError m)
    (hp : outcomes k = AttemptOutcome.persistentError line) :
    start_service start_tries outcomes =
      (StartResult.persistentFailure line, failureTrace (k + 1)) ∧
    (failureTrace (k + 1)).count LifeEvent.startCall = k + 1 := by
  refine ⟨?_, count_startCall_failureTrace (k + 1)⟩
  obtain ⟨r, rfl⟩ : ∃ r, start_tries = r + 1 := ⟨start_tries - 1, by omega⟩
  cases k with
  | zero =>
    simp [start_service, start_service_go, hp, failureTrace]
  | succ j =>
    have h0 := hfail 0 (by omega)
    have hp' : outcomes (0 + 1 + j) = AttemptOutcome.persistentError line := by
      rw [show 0 + 1 + j = j + 1 by omega]; exact hp
    rcases h0 with h0 | ⟨m, h0⟩ <;>
      simp only [start_service, start_service_go, h0, if_neg (lt_irrefl 0)] <;>
      rw [start_go_persistent outcomes line j r 1 (by omega) (by omega)
        (fun i h1 h2 => hfail i (by omega)) hp'] <;>
      simp [failureTrace]

/-- C1 witness: with `start_tries = 3` and a persistent error signalled on
the first attempt, `start_service` propagates it after a single `_start`
call. -/
theorem start_service_persistent_aborts_witness :
    start_service 3 (fun _ => AttemptOutcome.persistentError ("fatal: disk full")) =
      (StartResult.persistentFailure ("fatal: disk full"), failureTrace 1) ∧
    (failureTrace 1).count LifeEvent.startCall = 1 :=
  start_service_persistent_aborts 3 (fun _ => AttemptOutcome.persistentError ("fatal: disk full"))
    ("fatal: disk full") 0 (by omega) (fun i hi => absurd hi (by omega)) rfl

/-- C2: if every attempt's readiness wait fails transiently (raises
`TransientServiceStartError` or times out), `start_service` raises
`ServiceStartError` after exactly `start_tries` attempts, and on every
attempt after the first it calls `_stop` on the service before calling
`_start` again: the backend trace is `_start`, then `start_tries - 1`
repetitions of `_stop; _start`, with exactly `start_tries` calls to
`_start` in total. -/
theorem start_service_exhausts_retries (start_tries : Nat) (outcomes : Nat → AttemptOutcome)
    (hfail : ∀ i, i < start_tries →
      outcomes i = AttemptOutcome.timedOut ∨ ∃ m, outcomes i = AttemptOutcome.transientError m) :
    start_service start_tries outcomes = (StartResult.startError, failureTrace start_tries) ∧
    (failureTrace start_tries).count LifeEvent.startCall = start_tries := by
  refine ⟨?_, count_startCall_failureTrace start_tries⟩
  cases start_tries with
  | zero => rfl
  | succ n =>
    have h0 := hfail 0 (by omega)
    rcases h0 with h0 | ⟨m, h0⟩ <;>
      simp only [start_service, start_service_go, h0, if_neg (lt_irrefl 0)] <;>
      rw [start_go_all_fail outcomes n 1 (by omega) (fun i h1 h2 => hfail i (by omega))] <;>
      simp [failureTrace]

/-- C2 witness: with `start_tries = 3` and every wait failing transiently,
`start_service` raises `ServiceStartError` after exactly three attempts,
stopping before restarting on the second and third. -/
theorem start_service_exhausts_retries_witness :
    start_service 3 (fun _ => AttemptOutcome.transientError ("connection refused")) =
      (StartResult.startError, failureTrace 3) ∧
    (failureTrace 3).count LifeEvent.startCall = 3 :=
  start_service_exhausts_retries 3 (fun _ => AttemptOutcome.transientError ("connection refused"))
    (fun _ _ => Or.inr ⟨"connection refused", rfl⟩)

/-- Helper: the retry loop cannot distinguish a `TimeoutError` from a
`TransientServiceStartError`: both `except` clauses log and fall through to
the next iteration, so replacing a timed-out attempt by a transient one
changes nothing about the loop's result or its backend trace. -/
theorem start_go_timeout_as_transient (o o' : Nat → AttemptOutcome)
    (h : ∀ i, o i = o' i ∨
      (o i = AttemptOutcome.timedOut ∧ ∃ m, o' i = AttemptOutcome.transientError m)) :
    ∀ remaining tries, start_service_go o tries remaining = start_service_go o' tries remaining := by
  intro remaining
  induction remaining with
  | zero => intro _; rfl
  | succ n ih =>
    intro tries
    rcases h tries with heq | ⟨ht, m, ht'⟩
    · have heq' : o' tries = o tries := heq.symm
      cases ho : o tries <;> rw [ho] at heq' <;>
        simp only [start_service_go, ho, heq', ih]
    · simp only [start_service_go, ht, ht', ih]

/-- C4: a finite `start_timeout` wraps the readiness wait so that running
past the deadline yields `TimeoutError`, which `start_service` handles
exactly like a transient failure (same result, same `_stop`/`_start`
trace, retry loop continues); with `start_timeout = math.inf` the wait is
entered with no deadline, so its own result is returned whatever its
duration. -/
theorem timeout_handled_as_transient (T d : Nat) (r : WaitRes) (st k : Nat)
    (o : Nat → AttemptOutcome) (m : String) :
    attempt_outcome none (RawWait.completes d r) = waitResultToOutcome r ∧
    (T < d → attempt_outcome (some T) (RawWait.completes d r) = AttemptOutcome.timedOut) ∧
    (o k = AttemptOutcome.timedOut →
      start_service st o =
        start_service st (fun i => if i = k then AttemptOutcome.transientError m else o i)) := by
  refine ⟨rfl, fun h => by simp [attempt_outcome, h], fun hk => ?_⟩
  unfold start_service
  exact start_go_timeout_as_transient o _ (fun i => by
    by_cases hik : i = k
    · subst hik
      exact Or.inr ⟨hk, m, by simp⟩
    · exact Or.inl (by simp [hik])) st 0

/-- C4 witness: a wait of duration 2 under timeout 1 times out, is entered
with no deadline when the timeout is unbounded, and a timed-out first
attempt drives the loop exactly as a transient one would. -/
theorem timeout_handled_as_transient_witness :
    attempt_outcome none (RawWait.completes 2 WaitRes.ok) = waitResultToOutcome WaitRes.ok ∧
    attempt_outcome (some 1) (RawWait.completes 2 WaitRes.ok) = AttemptOutcome.timedOut ∧
    start_service 2 (fun _ => AttemptOutcome.timedOut) =
      start_service 2
        (fun i => if i = 0 then AttemptOutcome.transientError ("t") else AttemptOutcome.timedOut) := by
  obtain ⟨a, b, c⟩ :=
    timeout_handled_as_transient 1 2 WaitRes.ok 2 0 (fun _ => AttemptOutcome.timedOut) "t"
  exact ⟨a, b (by omega), c rfl⟩

/-- C5: on each log line the detectors fire in the source's fixed priority
order, and a hit consumes no further lines: a persistent-error match raises
`PersistentServiceStartError` with that line even if the other detectors
would also match; failing that, a transient-error match raises
`TransientServiceStartError` with the line; failing both, a start match
succeeds after exactly this one line, whatever the rest of the stream
holds. -/
theorem log_detector_priority (pd td : Option (String → Bool)) (sd : String → Bool)
    (dump line : String) (rest : List String) :
    (matchesOpt pd line = true →
      wait_until_log_indicates_start pd td sd (line :: rest) dump = (WaitRes.persistent line, 1)) ∧
    (matchesOpt pd line = false → matchesOpt td line = true →
      wait_until_log_indicates_start pd td sd (line :: rest) dump = (WaitRes.transient line, 1)) ∧
    (matchesOpt pd line = false → matchesOpt td line = false → sd line = true →
      wait_until_log_indicates_start pd td sd (line :: rest) dump = (WaitRes.ok, 1)) := by
  refine ⟨fun h1 => ?_, fun h1 h2 => ?_, fun h1 h2 h3 => ?_⟩
  · simp [wait_until_log_indicates_start, wait_log_go, h1]
  · simp [wait_until_log_indicates_start, wait_log_go, h1, h2]
  · simp [wait_until_log_indicates_start, wait_log_go, h1, h2, h3]

/-- C5 witness: with a persistent detector for "fatal", a transient
detector for "warn" and a start detector for "ready", each kind of line is
classified accordingly after reading exactly one line. -/
theorem log_detector_priority_witness :
    wait_until_log_indicates_start (some (fun l => l == "fatal")) (some (fun l => l == "warn"))
      (fun l => l == "ready") (["fatal", "x"]) "d" = (WaitRes.persistent ("fatal"), 1) ∧
    wait_until_log_indicates_start (some (fun l => l == "fatal")) (some (fun l => l == "warn"))
      (fun l => l == "ready") (["warn", "x"]) "d" = (WaitRes.transient ("warn"), 1) ∧
    wait_until_log_indicates_start (some (fun l => l == "fatal")) (some (fun l => l == "warn"))
      (fun l => l == "ready") (["ready", "x"]) "d" = (WaitRes.ok, 1) :=
  ⟨(log_detector_priority (some (fun l => l == "fatal")) (some (fun l => l == "warn"))
      (fun l => l == "ready") "d" "fatal" ["x"]).1 (by decide),
    (log_detector_priority (some (fun l => l == "fatal")) (some (fun l => l == "warn"))
      (fun l => l == "ready") "d" "warn" ["x"]).2.1 (by decide) (by decide),
    (log_detector_priority (some (fun l => l == "fatal")) (some (fun l => l == "warn"))
      (fun l => l == "ready") "d" "ready" ["x"]).2.2 (by decide) (by decide) (by decide)⟩

/-- Helper: when no detector matches any streamed line, the log monitor
reads the whole stream and then reports the log dump as a transient
failure. -/
theorem wait_log_go_no_match (pd td : Option (String → Bool)) (sd : String → Bool)
    (dump : String) :
    ∀ (lines : List String) (n : Nat),
    (∀ l ∈ lines, matchesOpt pd l = false ∧ matchesOpt td l = false ∧ sd l = false) →
    wait_log_go pd td sd dump lines n =
      (WaitRes.transient
        ("No error detected in logs but the container has stopped. Log dump: " ++ dump),
        n + lines.length) := by
  intro lines
  induction lines with
  | nil => intro n _; simp [wait_log_go]
  | cons l rest ih =>
    intro n h
    obtain ⟨h1, h2, h3⟩ := h l (List.mem_cons_self l rest)
    simp only [wait_log_go, h1, h2, h3, Bool.false_eq_true, if_false]
    rw [ih (n + 1) (fun x hx => h x (List.mem_cons_of_mem l hx))]
    simp [Nat.add_comm, Nat.add_assoc, Nat.add_left_comm]

/-- C8: if the log stream ends without any detector having matched any
line, the log monitor raises a `TransientServiceStartError` (eligible for
the outer retry loop) whose message carries the container's accumulated
log output. -/
theorem log_stream_end_transient (pd td : Option (String → Bool)) (sd : String → Bool)
    (lines : List String) (dump : String)
    (h : ∀ l ∈ lines, matchesOpt pd l = false ∧ matchesOpt td l = false ∧ sd l = false) :
    wait_until_log_indicates_start pd td sd lines dump =
      (WaitRes.transient
        ("No error detected in logs but the container has stopped. Log dump: " ++ dump),
        lines.length) := by
  unfold wait_until_log_indicates_start
  rw [wait_log_go_no_match pd td sd dump lines 0 h]
  simp

/-- C8 witness: a stream of two unmatched lines ends in a transient error
carrying the dump. -/
theorem log_stream_end_transient_witness :
    wait_until_log_indicates_start none none (fun _ => false) (["booting", "still booting"])
      "dump" =
      (WaitRes.transient
        ("No error detected in logs but the container has stopped. Log dump: " ++ "dump"), 2) :=
  log_stream_end_transient none none (fun _ => false) ["booting", "still booting"] "dump"
    (by intro l _; exact ⟨rfl, rfl, rfl⟩)

/-- C3: `stop_service` is idempotent: on a never-started service (no
container handle) it completes without touching the runtime; running it
twice in succession leaves exactly the state of running it once; and a
container unknown to the runtime (`NotFound` during stop) is treated as
success, not propagated — the call still completes normally with the
runtime state unchanged. -/
theorem stop_service_idempotent (w : List String) (li : List Nat) (s : DockerisedService) :
    (s.container = none → stop_service w li s = (w, li.erase s.id, s)) ∧
    (w.Nodup → li.Nodup →
      stop_service (stop_service w li s).1 (stop_service w li s).2.1 (stop_service w li s).2.2 =
        stop_service w li s) ∧
    (∀ c, s.container = some c → c ∉ w → stop_service w li s = (w, li.erase s.id, s)) := by
  refine ⟨fun h => ?_, fun hw hli => ?_, fun c hc hcw => ?_⟩
  · simp [stop_service, dockerised_stop, h]
  · cases hc : s.container with
    | none =>
      simp [stop_service, dockerised_stop, hc, List.erase_of_not_mem hli.not_mem_erase]
    | some c =>
      by_cases hcw : c ∈ w
      · simp [stop_service, dockerised_stop, hc, container_stop, container_remove_force, hcw,
          Except.bind, List.erase_of_not_mem hli.not_mem_erase, hw.not_mem_erase]
      · simp [stop_service, dockerised_stop, hc, container_stop, container_remove_force, hcw,
          Except.bind, List.erase_of_not_mem hli.not_mem_erase]
  · simp [stop_service, dockerised_stop, hc, container_stop, container_remove_force, hcw,
      Except.bind]

/-- C3 witness: stopping a never-started service, stopping a started
service twice, and stopping a service whose container is unknown to the
runtime all behave as stated at concrete inputs. -/
theorem stop_service_idempotent_witness :
    stop_service [] [] svc0 = ([], [], svc0) ∧
    stop_service (stop_service (["c1"]) [1] svc1).1 (stop_service (["c1"]) [1] svc1).2.1
        (stop_service (["c1"]) [1] svc1).2.2 = stop_service (["c1"]) [1] svc1 ∧
    stop_service (["other"]) [1] svc1 = (["other"], ([1] : List Nat).erase 1, svc1) :=
  ⟨(stop_service_idempotent [] [] svc0).1 rfl,
    (stop_service_idempotent ["c1"] [1] svc1).2.1 (by decide) (by decide),
    (stop_service_idempotent ["other"] [1] svc1).2.2 "c1" rfl (by decide)⟩

/-- C7 counterexample: start then stop a service; the stop succeeds (the
backing container is removed from the runtime, leaving it empty), yet the
service's `container` field still holds the handle — it is not emptied
again, contradicting the claimed invariant. -/
theorem container_cleared_on_stop_counterexample :
    (dockerised_stop (dockerised_start [] svc0 ("c0") ("couchdb-1") [(5984, 49154)]).1 []
        (dockerised_start [] svc0 ("c0") ("couchdb-1") [(5984, 49154)]).2).1 = ([] : List String) ∧
    (dockerised_stop (dockerised_start [] svc0 ("c0") ("couchdb-1") [(5984, 49154)]).1 []
        (dockerised_start [] svc0 ("c0") ("couchdb-1") [(5984, 49154)]).2).2.2.container =
      some ("c0") := by
  constructor <;> decide

/-- C7 amended: `_start` populates the `container` field with the freshly
created container's handle, and a successful `_stop` removes the backing
container from the runtime but leaves the service record — in particular
its `container` field — unchanged, so the field stays non-empty after
`_stop`. -/
theorem container_field_tracks_start (w : List String) (li : List Nat) (s : DockerisedService)
    (fresh name : String) (ports : List (Nat × Nat)) :
    (dockerised_start w s fresh name ports).2.container = some fresh ∧
    (dockerised_stop w li s).2.2 = s ∧
    (∀ c, s.container = some c → c ∈ w → (dockerised_stop w li s).1 = w.erase c) := by
  refine ⟨rfl, ?_, fun c hc hcw => ?_⟩
  · unfold dockerised_stop
    cases s.container with
    | none => rfl
    | some c =>
      by_cases hcw : c ∈ w <;>
        simp [container_stop, container_remove_force, hcw, Except.bind]
  · simp [dockerised_stop, hc, container_stop, container_remove_force, hcw, Except.bind]

/-- C7 amended witness: at a concrete started service, `_start` fills the
field, `_stop` leaves the record unchanged and erases the container from
the runtime. -/
theorem container_field_tracks_start_witness :
    (dockerised_start (["c1"]) svc1 ("c0") ("svc-2") [(80, 8080)]).2.container = some ("c0") ∧
    (dockerised_stop (["c1"]) [1] svc1).2.2 = svc1 ∧
    (dockerised_stop (["c1"]) [1] svc1).1 = (["c1"]).erase ("c1") :=
  ⟨(container_field_tracks_start ["c1"] [1] svc1 "c0" "svc-2" [(80, 8080)]).1,
    (container_field_tracks_start ["c1"] [1] svc1 "c0" "svc-2" [(80, 8080)]).2.1,
    (container_field_tracks_start ["c1"] [1] svc1 "c0" "svc-2" [(80, 8080)]).2.2 "c1" rfl
      (by decide)⟩

/-- C6 counterexample: a controller configured with both log-based and
HTTP-based detection (and no custom monitor) passes constructor validation
— this pairwise combination of strategies is not rejected. -/
theorem strategies_pairwise_rejected_counterexample :
    dockerised_init_check logAndHttpController = Except.ok () := rfl

/-- C6 amended: configuring `startup_monitor` together with any log
detector or the HTTP detector raises a configuration error at construction
time, before any container is created; but log-based and HTTP-based
detection configured together are accepted — only combinations involving
the custom monitor are rejected. -/
theorem startup_monitor_exclusive (c : DockerisedServiceController) :
    (c.startup_monitor.isSome = true →
      (c.start_log_detector.isSome || c.persistent_error_log_detector.isSome ||
        c.transient_error_log_detector.isSome || c.start_http_detector.isSome) = true →
      ∃ msg, dockerised_init_check c = Except.error msg) ∧
    (c.startup_monitor = none → c.start_log_detector.isSome = true →
      c.start_http_detector.isSome = true → c.start_http_detection_endpoint.isSome = true →
      dockerised_init_check c = Except.ok ()) := by
  constructor
  · intro h1 h2
    refine ⟨"Cannot set `startup_monitor` in conjunction with any other detector", ?_⟩
    unfold dockerised_init_check
    rw [if_pos (by rw [h1, h2]; rfl)]
  · intro h0 h1 h2 h3
    unfold dockerised_init_check
    rw [if_neg (by simp [h0]), if_neg (by simp [h2, h3])]

/-- C6 amended witness: a monitor plus a log detector is rejected, while
log plus HTTP detection is accepted. -/
theorem startup_monitor_exclusive_witness :
    (∃ msg, dockerised_init_check
      { logAndHttpController with startup_monitor := some WaitRes.ok } = Except.error msg) ∧
    dockerised_init_check logAndHttpController = Except.ok () :=
  ⟨(startup_monitor_exclusive
      { logAndHttpController with startup_monitor := some WaitRes.ok }).1 rfl rfl,
    (startup_monitor_exclusive logAndHttpController).2 rfl rfl rfl rfl⟩

/-- C9: setting exactly one of `start_http_detector` and
`start_http_detection_endpoint` makes constructor validation raise a
configuration error; when the two are both set or both absent, validation
succeeds in this respect (with no custom monitor configured it returns
successfully). -/
theorem http_detector_endpoint_paired (c : DockerisedServiceController) :
    (c.start_http_detector.isSome ≠ c.start_http_detection_endpoint.isSome →
      ∃ msg, dockerised_init_check c = Except.error msg) ∧
    (c.startup_monitor = none →
      c.start_http_detector.isSome = c.start_http_detection_endpoint.isSome →
      dockerised_init_check c = Except.ok ()) := by
  constructor
  · intro h
    unfold dockerised_init_check
    by_cases h1 : (c.startup_monitor.isSome &&
        (c.start_log_detector.isSome || c.persistent_error_log_detector.isSome ||
          c.transient_error_log_detector.isSome || c.start_http_detector.isSome)) = true
    · rw [if_pos h1]
      exact ⟨_, rfl⟩
    · rw [if_neg h1, if_pos ?_]
      · exact ⟨_, rfl⟩
      · cases hd : c.start_http_detector.isSome <;>
          cases he : c.start_http_detection_endpoint.isSome <;>
          rw [hd, he] at h <;> simp_all
  · intro h0 heq
    unfold dockerised_init_check
    rw [if_neg (by simp [h0]), if_neg (by rw [heq]; cases c.start_http_detection_endpoint.isSome <;> simp)]

/-- C9 witness: endpoint without detector is rejected; detector with
endpoint (no monitor) passes; neither set passes. -/
theorem http_detector_endpoint_paired_witness :
    (∃ msg, dockerised_init_check
      { noDetectorController with start_http_detection_endpoint := some ("health") } =
        Except.error msg) ∧
    dockerised_init_check logAndHttpController = Except.ok () ∧
    dockerised_init_check noDetectorController = Except.ok () :=
  ⟨(http_detector_endpoint_paired
      { noDetectorController with start_http_detection_endpoint := some ("health") }).1
      (by decide),
    (http_detector_endpoint_paired logAndHttpController).2 rfl rfl,
    (http_detector_endpoint_paired noDetectorController).2 rfl rfl⟩

/-- C10: with no custom monitor, no log detector and no HTTP detector
configured, `_wait_until_started` returns immediately — it inspects no log
line and issues no HTTP request — and consequently a wait of zero duration
succeeds on the first attempt under any timeout setting, so
`start_service` returns the service after a single `_start` call. -/
theorem no_detectors_immediate_start (c : DockerisedServiceController) (env : WaitEnv)
    (start_tries : Nat) (timeout : Option Nat)
    (hm : c.startup_monitor = none) (hl : c.start_log_detector = none)
    (hh : c.start_http_detector = none) (hst : 0 < start_tries) :
    wait_until_started c env = some (WaitRes.ok, 0, 0) ∧
    start_service start_tries (fun _ => attempt_outcome timeout (RawWait.completes 0 WaitRes.ok)) =
      (StartResult.serviceReturned, [LifeEvent.startCall]) := by
  constructor
  · simp [wait_until_started, hm, hl, hh]
  · obtain ⟨r, rfl⟩ : ∃ r, start_tries = r + 1 := ⟨start_tries - 1, by omega⟩
    have hout : attempt_outcome timeout (RawWait.completes 0 WaitRes.ok) =
        AttemptOutcome.started := by
      cases timeout <;> simp [attempt_outcome, waitResultToOutcome]
    simp [start_service, start_service_go, hout]

/-- C10 witness: the detector-free controller returns from the wait at once
and `start_service` succeeds on the first attempt. -/
theorem no_detectors_immediate_start_witness :
    wait_until_started noDetectorController { logLines := [], dumpLogs := "", httpResponses := [] } =
      some (WaitRes.ok, 0, 0) ∧
    start_service 1 (fun _ => attempt_outcome none (RawWait.completes 0 WaitRes.ok)) =
      (StartResult.serviceReturned, [LifeEvent.startCall]) :=
  no_detectors_immediate_start noDetectorController
    { logLines := [], dumpLogs := "", httpResponses := [] } 1 none rfl rfl rfl (by omega)

end Useintest
